import Mathlib

/-!
Verification development for the `image-gen-mcp` repository.

The embedded code lives in `src/image_gen_mcp/client.py` (request encoder,
response decoder, transport error mapping, sequential orchestration, prompt
variations) and `src/image_gen_mcp/server.py` (tool-level validation, count
clamping, collision-safe file saving).  Python values flowing through the
decoder are JSON trees, modelled by the inductive `Json` below together with
Python's truthiness, `dict.get`, subscription and iteration semantics.
Bytes are modelled as `List Nat` with values below 256.
-/

namespace ImageGenMCP

/-- JSON values as produced by `response.json()` / `json.loads`.
Numbers are restricted to integers (no claim exercises float payloads). -/
inductive Json where
  | null : Json
  | bool (b : Bool) : Json
  | num (n : Int) : Json
  | str (s : String) : Json
  | arr (xs : List Json) : Json
  | obj (kvs : List (String × Json)) : Json

/-- Python exceptions that the embedded code can raise besides `ImageGenError`.
`keyError` carries `str(exc)` (the repr of the missing key), `jsonError` the
message of a `json.JSONDecodeError`. -/
inductive PyExc where
  | keyError (key_repr : String)
  | indexError
  | typeError
  | attributeError
  | jsonError (msg : String)
  | binasciiError
deriving DecidableEq

/-- `str(exc)` for the exceptions above; used when the code interpolates a
caught exception into an error message.  The texts follow CPython's wording. -/
def pyExcStr : PyExc → String
  | .keyError k => k
  | .indexError => "list index out of range"
  | .typeError => "type error"
  | .attributeError => "attribute error"
  | .jsonError m => m
  | .binasciiError => "Invalid base64-encoded string"

/-- Python truthiness of a JSON value (`if x:`). -/
def Json.truthy : Json → Bool
  | .null => false
  | .bool b => b
  | .num n => n != 0
  | .str s => !s.data.isEmpty
  | .arr xs => !xs.isEmpty
  | .obj kvs => !kvs.isEmpty

/-- Pure lookup of a key in a JSON object (first binding wins, like a Python
dict in which keys are unique); `none` for a non-object or a missing key. -/
def Json.lookup : Json → String → Option Json
  | .obj kvs, k => kvs.lookup k
  | _, _ => none

/-- Python `s.startswith(pre)`, as a character-list prefix test. -/
def startsWithPy (s pre : String) : Bool := pre.data.isPrefixOf s.data

/-- Python `x.get(key, default)`: only dicts have `.get`; any other value
raises `AttributeError`. -/
def Json.getD : Json → String → Json → Except PyExc Json
  | .obj kvs, k, d => .ok ((kvs.lookup k).getD d)
  | _, _, _ => .error .attributeError

/-- Python `x[key]` with a string key: `KeyError` on a dict without the key,
`TypeError` on anything that is not a dict. -/
def Json.subscriptKey : Json → String → Except PyExc Json
  | .obj kvs, k =>
      match kvs.lookup k with
      | some v => .ok v
      | none => .error (.keyError ("'" ++ k ++ "'"))
  | _, _ => .error .typeError

/-- Python `x[i]` with a non-negative integer index. -/
def Json.subscriptIdx : Json → Nat → Except PyExc Json
  | .arr xs, i =>
      match xs.get? i with
      | some v => .ok v
      | none => .error .indexError
  | .obj _, i => .error (.keyError (toString i))
  | .str s, i =>
      match s.data.get? i with
      | some c => .ok (.str (String.mk [c]))
      | none => .error .indexError
  | _, _ => .error .typeError

/-- Python iteration `for x in v`: lists yield elements, strings yield
one-character strings, dicts yield their keys; other values raise
`TypeError`. -/
def Json.toIter : Json → Except PyExc (List Json)
  | .arr xs => .ok xs
  | .str s => .ok (s.data.map fun c => .str (String.mk [c]))
  | .obj kvs => .ok (kvs.map fun kv => .str kv.1)
  | _ => .error .typeError

/-- Python `len(v)` for sized values. -/
def Json.pyLen : Json → Except PyExc Nat
  | .arr xs => .ok xs.length
  | .str s => .ok s.length
  | .obj kvs => .ok kvs.length
  | _ => .error .typeError

/-- `repr` of a JSON value as Python would print it inside a container
(strings quoted). -/
def Json.pyRepr : Json → String
  | .null => "None"
  | .bool true => "True"
  | .bool false => "False"
  | .num n => toString n
  | .str s => "'" ++ s ++ "'"
  | .arr xs =>
      "[" ++ String.intercalate ", " (xs.attach.map fun x => x.1.pyRepr) ++ "]"
  | .obj kvs =>
      "\x7b" ++
        String.intercalate ", "
          (kvs.attach.map fun kv => "'" ++ kv.1.1 ++ "': " ++ kv.1.2.pyRepr) ++
        "\x7d"
decreasing_by
  · have h := List.sizeOf_lt_of_mem x.2
    simp only [Json.arr.sizeOf_spec]
    omega
  · have h := List.sizeOf_lt_of_mem kv.2
    obtain ⟨⟨k, v⟩, hm⟩ := kv
    simp only [Json.obj.sizeOf_spec]
    simp at h
    omega

/-- `str(v)` as used by an f-string: a string formats as itself, anything
else as its repr. -/
def Json.pyStr : Json → String
  | .str s => s
  | v => v.pyRepr

/-! ## Base64 (`base64.b64encode` / `base64.b64decode`)

Standard base64 over byte lists.  Decoding is the strict standard decoding;
CPython's lenient discarding of invalid characters in malformed input is not
modelled (no claim exercises malformed base64). -/

/-- The character for a 6-bit group. -/
def sextetChar (n : Nat) : Char :=
  if n < 26 then Char.ofNat (65 + n)
  else if n < 52 then Char.ofNat (97 + (n - 26))
  else if n < 62 then Char.ofNat (48 + (n - 52))
  else if n = 62 then '+'
  else '/'

/-- The 6-bit group of a base64 alphabet character, `none` outside the
alphabet. -/
def charSextet (c : Char) : Option Nat :=
  let n := c.toNat
  if 65 ≤ n ∧ n ≤ 90 then some (n - 65)
  else if 97 ≤ n ∧ n ≤ 122 then some (n - 97 + 26)
  else if 48 ≤ n ∧ n ≤ 57 then some (n - 48 + 52)
  else if c = '+' then some 62
  else if c = '/' then some 63
  else none

/-- `base64.b64encode` on a byte list, as characters. -/
def b64encodeChars : List Nat → List Char
  | [] => []
  | [a] => [sextetChar (a / 4), sextetChar (a % 4 * 16), '=', '=']
  | [a, b] => [sextetChar (a / 4), sextetChar (a % 4 * 16 + b / 16),
               sextetChar (b % 16 * 4), '=']
  | a :: b :: c :: rest =>
      sextetChar (a / 4) :: sextetChar (a % 4 * 16 + b / 16) ::
      sextetChar (b % 16 * 4 + c / 64) :: sextetChar (c % 64) ::
      b64encodeChars rest

/-- `base64.b64encode(bytes).decode("utf-8")`. -/
def b64encode (bs : List Nat) : String := String.mk (b64encodeChars bs)

/-- `base64.b64decode` on characters: processes four characters at a time,
accepting `=` padding only at the end. -/
def b64decodeChars : List Char → Option (List Nat)
  | [] => some []
  | c1 :: c2 :: c3 :: c4 :: rest => do
      let s1 ← charSextet c1
      let s2 ← charSextet c2
      if c3 = '=' then
        if c4 = '=' ∧ rest = [] then some [s1 * 4 + s2 / 16] else none
      else
        let s3 ← charSextet c3
        if c4 = '=' then
          if rest = [] then some [s1 * 4 + s2 / 16, s2 % 16 * 16 + s3 / 4]
          else none
        else do
          let s4 ← charSextet c4
          let tail ← b64decodeChars rest
          some ((s1 * 4 + s2 / 16) :: (s2 % 16 * 16 + s3 / 4) ::
                (s3 % 4 * 64 + s4) :: tail)
  | _ => none

/-- `base64.b64decode` on a string. -/
def b64decode (s : String) : Option (List Nat) := b64decodeChars s.data

/-! ## `client.py`: `ImageGenError`, transport outcomes and the decoder -/

/-- `ImageGenError(message, status_code)` from `client.py`. -/
structure ImageGenError where
  message : String
  status_code : Option Nat := none
deriving DecidableEq

/-- Outcome of one `httpx` POST, abstracting the network: the request either
times out, fails at request level with a message, or yields a response with a
status code, the result of `response.json()` (an `Except` carrying the
`JSONDecodeError` message on unparseable bodies) and the raw `response.text`. -/
inductive HttpOutcome where
  | timeout
  | requestError (msg : String)
  | response (status : Nat) (jsonBody : Except String Json) (text : String)

/-- Errors escaping the decoder `_extract_images`: either a raised
`ImageGenError` message, or a plain Python exception (from `.get` on a
non-dict, iterating a non-iterable, or `base64.b64decode`). -/
inductive ExtractErr where
  | genError (msg : String)
  | py (e : PyExc)
deriving DecidableEq

/-- Lift a primitive Python operation into the decoder's error type. -/
def liftEx : Except PyExc α → Except ExtractErr α
  | .ok a => .ok a
  | .error e => .error (.py e)

/-- Body of the inner `for part in parts` loop of `_extract_images`: the
images contributed by one part (the empty list when the part is skipped). -/
def partImages (part : Json) : Except ExtractErr (List (List Nat)) :=
  match liftEx (part.getD "inlineData" .null) with
  | .error e => .error e
  | .ok inline_data =>
      if inline_data.truthy then
        match liftEx (inline_data.getD "mimeType" (.str "")) with
        | .error e => .error e
        | .ok mime =>
            match mime with
            | .str m =>
                if startsWithPy m "image/" then
                  match liftEx (inline_data.getD "data" (.str "")) with
                  | .error e => .error e
                  | .ok image_b64 =>
                      if image_b64.truthy then
                        match image_b64 with
                        | .str d =>
                            match b64decodeChars d.data with
                            | some bytes => .ok [bytes]
                            | none => .error (.py .binasciiError)
                        | _ => .error (.py .typeError)
                      else .ok []
                else .ok []
            | _ => .error (.py .attributeError)
      else .ok []

/-- Images contributed by a list of parts, in order. -/
def partsImages : List Json → Except ExtractErr (List (List Nat))
  | [] => .ok []
  | p :: rest =>
      match partImages p with
      | .error e => .error e
      | .ok here =>
          match partsImages rest with
          | .error e => .error e
          | .ok more => .ok (here ++ more)

/-- Body of the outer `for candidate in candidates` loop of
`_extract_images`. -/
def candidateImages (candidate : Json) : Except ExtractErr (List (List Nat)) :=
  match liftEx (candidate.getD "content" (.obj [])) with
  | .error e => .error e
  | .ok content =>
      match liftEx (content.getD "parts" (.arr [])) with
      | .error e => .error e
      | .ok partsVal =>
          match liftEx partsVal.toIter with
          | .error e => .error e
          | .ok parts => partsImages parts

/-- Images contributed by a list of candidates, in order. -/
def candidatesImages : List Json → Except ExtractErr (List (List Nat))
  | [] => .ok []
  | c :: rest =>
      match candidateImages c with
      | .error e => .error e
      | .ok here =>
          match candidatesImages rest with
          | .error e => .error e
          | .ok more => .ok (here ++ more)

/-- `ImageGenClient._extract_images(response_data)`. -/
def extractImages (response_data : Json) : Except ExtractErr (List (List Nat)) :=
  match liftEx (response_data.getD "candidates" (.arr [])) with
  | .error e => .error e
  | .ok candidates =>
      if !candidates.truthy then
        .error (.genError "No candidates in API response")
      else
        match liftEx candidates.toIter with
        | .error e => .error e
        | .ok cs =>
            match candidatesImages cs with
            | .error e => .error e
            | .ok images =>
                if images.isEmpty then
                  .error (.genError "No images found in API response")
                else .ok images

/-- `str(e)` of an exception caught by `except Exception` in
`_single_generate`. -/
def extractErrStr : ExtractErr → String
  | .genError m => m
  | .py e => pyExcStr e

/-- The message extraction for HTTP errors in `_single_generate` (lines
134-138): try `response.json()` and read `error.message`; any failure falls
back to `response.text`.  A non-string `message` value is rendered as Python's
f-string would render it. -/
def extractErrorMessage (jsonBody : Except String Json) (text : String) : String :=
  match jsonBody with
  | .error _ => text
  | .ok error_data =>
      match error_data.getD "error" (.obj []) with
      | .error _ => text
      | .ok ev =>
          match ev.getD "message" (.str text) with
          | .error _ => text
          | .ok v => v.pyStr

/-- `ImageGenClient._single_generate`, as a function of the outcome of its
POST: HTTP failure mapping (lines 117-139) followed by response parsing and
image extraction (lines 141-147). -/
def singleGenerate (o : HttpOutcome) : Except ImageGenError (List Nat) :=
  match o with
  | .timeout =>
      .error ⟨"Request timed out. Try a smaller image size or simpler prompt.", none⟩
  | .requestError m => .error ⟨"Network error: " ++ m, none⟩
  | .response status jsonBody text =>
      if status = 401 then .error ⟨"Invalid API key", some 401⟩
      else if status = 429 then
        .error ⟨"Rate limit exceeded. Please wait before trying again.", some 429⟩
      else if 400 ≤ status then
        .error ⟨"API error: " ++ extractErrorMessage jsonBody text, some status⟩
      else
        match jsonBody with
        | .error m => .error ⟨"Failed to parse API response: " ++ m, none⟩
        | .ok data =>
            match extractImages data with
            | .error e =>
                .error ⟨"Failed to parse API response: " ++ extractErrStr e, none⟩
            | .ok images =>
                match images with
                | [] => .error ⟨"Failed to parse API response: list index out of range", none⟩
                | img :: _ => .ok img

/-! ## `client.py`: the sequential orchestrator `generate` -/

/-- The loop of `ImageGenClient.generate`: `k` remaining iterations, the
`i`-th underlying call seeing outcome `outcomes i`; returns the final result
together with the number of single-image calls actually performed.  An error
aborts immediately, discarding `acc`. -/
def generateLoop (outcomes : Nat → HttpOutcome) :
    Nat → Nat → List (List Nat) → Except ImageGenError (List (List Nat)) × Nat
  | _, 0, acc => (.ok acc, 0)
  | i, k + 1, acc =>
      match singleGenerate (outcomes i) with
      | .error e => (.error e, 1)
      | .ok img =>
          let r := generateLoop outcomes (i + 1) k (acc ++ [img])
          (r.1, r.2 + 1)

/-- `ImageGenClient.generate(prompt, aspect_ratio, size, num_images,
reference_images)`: `num_images` sequential single-image calls (none when
`num_images <= 0`, since `range` of a non-positive int is empty).  The prompt
and image parameters are absorbed into `outcomes`, the per-call transport
environment. -/
def clientGenerate (outcomes : Nat → HttpOutcome) (num_images : Int) :
    Except ImageGenError (List (List Nat)) × Nat :=
  generateLoop outcomes 0 num_images.toNat []

/-! ## `client.py`: `generate_prompt_variations` -/

/-- Errors escaping `generate_prompt_variations`: a raised `ImageGenError`,
or a Python exception not caught by its `except (KeyError,
json.JSONDecodeError)` clause. -/
inductive ChatErr where
  | raised (e : ImageGenError)
  | py (e : PyExc)
deriving DecidableEq

/-- The `except (KeyError, json.JSONDecodeError)` clause of
`generate_prompt_variations`: those two exceptions are wrapped into an
`ImageGenError`; every other exception escapes. -/
def liftChat : Except PyExc α → Except ChatErr α
  | .ok a => .ok a
  | .error (.keyError k) =>
      .error (.raised ⟨"Failed to parse LLM response: " ++ k, none⟩)
  | .error (.jsonError m) =>
      .error (.raised ⟨"Failed to parse LLM response: " ++ m, none⟩)
  | .error e => .error (.py e)

/-- `json.loads(content)`: the parser itself is external, passed in as
`loads`; a non-string argument raises `TypeError`, a parse failure
`json.JSONDecodeError`. -/
def jsonLoads (loads : String → Except String Json) (content : Json) :
    Except PyExc Json :=
  match content with
  | .str s =>
      match loads s with
      | .ok v => .ok v
      | .error m => .error (.jsonError m)
  | _ => .error .typeError

/-- `ImageGenClient.generate_prompt_variations(base_prompt, count,
diversity)`, as a function of the outcome of its chat POST (lines 244-275).
The base prompt and diversity only shape the outbound request, which is
absorbed into the outcome; the returned value is the `variations` JSON value
(an array of strings in well-formed responses). -/
def generatePromptVariations (loads : String → Except String Json)
    (count : Int) (o : HttpOutcome) : Except ChatErr Json :=
  match o with
  | .timeout => .error (.raised ⟨"Prompt variation request timed out.", none⟩)
  | .requestError m =>
      .error (.raised ⟨"Network error during prompt variation: " ++ m, none⟩)
  | .response status jsonBody text =>
      if 400 ≤ status then
        .error (.raised ⟨"LLM API error: " ++ text, some status⟩)
      else
        match jsonBody with
        | .error m =>
            .error (.raised ⟨"Failed to parse LLM response: " ++ m, none⟩)
        | .ok data =>
            match liftChat (data.subscriptKey "choices") with
            | .error e => .error e
            | .ok choices =>
                match liftChat (choices.subscriptIdx 0) with
                | .error e => .error e
                | .ok choice0 =>
                    match liftChat (choice0.subscriptKey "message") with
                    | .error e => .error e
                    | .ok message =>
                        match liftChat (message.subscriptKey "content") with
                        | .error e => .error e
                        | .ok content =>
                            match liftChat (jsonLoads loads content) with
                            | .error e => .error e
                            | .ok parsed =>
                                match liftChat (parsed.getD "variations" (.arr [])) with
                                | .error e => .error e
                                | .ok variations =>
                                    match liftChat variations.pyLen with
                                    | .error e => .error e
                                    | .ok n =>
                                        if (n : Int) ≠ count then
                                          .error (.raised ⟨"Expected " ++ toString count ++
                                            " variations, got " ++ toString n, none⟩)
                                        else .ok variations

/-! ## `client.py`: the request encoder `_build_request_body` -/

/-- One inline-data part of the request body, carrying the base64-encoded
reference image. -/
def mkInlinePart (img_bytes : List Nat) : Json :=
  .obj [("inlineData", .obj [("mimeType", .str "image/jpeg"),
                             ("data", .str (b64encode img_bytes))])]

/-- `ImageGenClient._build_request_body(prompt, aspect_ratio, size,
reference_images)`: inline parts for the reference images (if any), then the
text part, beside the `generationConfig` object. -/
def buildRequestBody (prompt aspect size : String)
    (reference_images : Option (List (List Nat))) : Json :=
  let imgParts : List Json :=
    match reference_images with
    | none => []
    | some refs => refs.map mkInlinePart
  let parts : List Json := imgParts ++ [.obj [("text", .str prompt)]]
  .obj [("contents", .arr [.obj [("parts", .arr parts)]]),
        ("generationConfig",
          .obj [("responseModalities", .arr [.str "TEXT", .str "IMAGE"]),
                ("imageConfig", .obj [("aspectRatio", .str aspect),
                                      ("imageSize", .str size)])])]

/-! ## `server.py`: validation, count clamping, file saving -/

/-- `[r.value for r in AspectRatio]` from `models.py`. -/
def validAspectRatios : List String :=
  ["1:1", "16:9", "9:16", "4:3", "3:4", "3:2", "2:3", "21:9", "9:21", "5:4"]

/-- `[s.value for s in ImageSize]` from `models.py`. -/
def validImageSizes : List String := ["1K", "2K", "4K"]

/-- Round `p / q` (with `q > 0`) to the nearest integer, ties to even: the
rounding `"%.1f" % x` applies.  `format_file_size` only divides by powers of
1024, which is exact in binary floating point below `2^53`, so rational
arithmetic models the Python float computation faithfully in that range. -/
def roundHalfEvenDiv (p q : Nat) : Nat :=
  let d := p / q
  let r := p % q
  if 2 * r < q then d
  else if 2 * r > q then d + 1
  else if d % 2 = 0 then d else d + 1

/-- `f"{x:.1f}"` for the non-negative exact rational `size / den`. -/
def fmtOneDecimal (size den : Nat) : String :=
  let n10 := roundHalfEvenDiv (size * 10) den
  toString (n10 / 10) ++ "." ++ toString (n10 % 10)

/-- `format_file_size(size_bytes)` from `server.py`: repeatedly divide by
1024 until below 1024, then print with one decimal and the unit. -/
def format_file_size (size_bytes : Nat) : String :=
  if size_bytes < 1024 then fmtOneDecimal size_bytes 1 ++ " B"
  else if size_bytes < 1024 ^ 2 then fmtOneDecimal size_bytes 1024 ++ " KB"
  else if size_bytes < 1024 ^ 3 then fmtOneDecimal size_bytes (1024 ^ 2) ++ " MB"
  else if size_bytes < 1024 ^ 4 then fmtOneDecimal size_bytes (1024 ^ 3) ++ " GB"
  else fmtOneDecimal size_bytes (1024 ^ 4) ++ " TB"

/-- `pathlib.PurePath(name).stem`: the name with its last extension removed;
a dot at the start or at the very end does not begin an extension. -/
def pathStem (name : String) : String :=
  let cs := name.data
  let n := cs.length
  let dotIdxs := (List.range n).filter fun i =>
    cs.getD i ' ' == '.' && decide (0 < i) && decide (i < n - 1)
  match dotIdxs.getLast? with
  | some i => String.mk (cs.take i)
  | none => name

/-- `GeneratedImage` from `models.py` (the metadata returned by
`save_image`). -/
structure GeneratedImage where
  path : String
  filename : String
  size_bytes : Nat
  size_human : String
deriving DecidableEq

/-- The `while filepath.exists()` collision loop of `save_image`: starting
from the desired name with `counter = 1`, move to `f"{original_stem}_{counter}.jpg"`
and increment until a free name is found.  The loop is bounded by `fuel`
(`none` on exhaustion); any `fuel` larger than the number of colliding names
suffices. -/
def resolveCollisionLoop (occupied : String → Bool) (stem : String) :
    Nat → Nat → String → Option String
  | 0, _, _ => none
  | fuel + 1, counter, current =>
      if occupied current then
        resolveCollisionLoop occupied stem fuel (counter + 1)
          (stem ++ "_" ++ toString counter ++ ".jpg")
      else some current

/-- `save_image(image_bytes, filename)` from `server.py`, with the output
directory's existing full paths as explicit state `fs`: resolve collisions,
write the file (returning the updated path list) and report the metadata. -/
def save_image (fs : List String) (output_dir : String)
    (image_bytes : List Nat) (filename : String) (fuel : Nat) :
    Option (GeneratedImage × List String) :=
  let occupied := fun name => fs.contains (output_dir ++ "/" ++ name)
  let original_stem := pathStem filename
  match resolveCollisionLoop occupied original_stem fuel 1 filename with
  | none => none
  | some name =>
      let path := output_dir ++ "/" ++ name
      some (⟨path, name, image_bytes.length, format_file_size image_bytes.length⟩,
            path :: fs)

/-- State of a path on disk, abstracting `Path.exists` / `Path.is_file` /
`Path.read_bytes` (the lookup already accounts for `expanduser`). -/
inductive FileStat where
  | missing
  | notFile
  | unreadable (msg : String)
  | file (content : List Nat)

/-- How far a tool call gets before its first backend call: either it
returns a validation-error string without ever touching the client, or it
reaches `client.generate` with these arguments. -/
inductive ToolStep where
  | validationError (msg : String)
  | generateCall (prompt aspect size : String) (num_images : Int)
      (reference_images : Option (List (List Nat)))
deriving DecidableEq

/-- Whether a tool call stopped at validation. -/
def ToolStep.isValidationError : ToolStep → Bool
  | .validationError _ => true
  | .generateCall _ _ _ _ _ => false

/-- The count clamp of `generate_multiple` (lines 219-223). -/
def clampMultipleCount (count : Int) : Int :=
  if count < 2 then 2 else if count > 4 then 4 else count

/-- The count clamp of `generate_variations` (lines 300-304). -/
def clampVariationsCount (count : Int) : Int :=
  if count < 1 then 1 else if count > 4 then 4 else count

/-- The aspect-ratio validation shared by the three generation tools. -/
def aspectRatioError (aspect : String) : String :=
  "Error: Invalid aspect ratio '" ++ aspect ++ "'. Valid options: " ++
    String.intercalate ", " validAspectRatios

/-- The size validation shared by the three generation tools. -/
def sizeError (size : String) : String :=
  "Error: Invalid size '" ++ size ++ "'. Valid options: " ++
    String.intercalate ", " validImageSizes

/-- `generate_image(prompt, aspect_ratio, size)` up to its backend call
(lines 159-176). -/
def generateImageStep (prompt aspect size : String) : ToolStep :=
  if !validAspectRatios.contains aspect then .validationError (aspectRatioError aspect)
  else if !validImageSizes.contains size then .validationError (sizeError size)
  else .generateCall prompt aspect size 1 none

/-- `generate_multiple(prompt, count, aspect_ratio, size)` up to its backend
call (lines 219-242). -/
def generateMultipleStep (prompt : String) (count : Int) (aspect size : String) :
    ToolStep :=
  let count := clampMultipleCount count
  if !validAspectRatios.contains aspect then .validationError (aspectRatioError aspect)
  else if !validImageSizes.contains size then .validationError (sizeError size)
  else .generateCall prompt aspect size count none

/-- The reference-image loading loop of `generate_variations` (lines
322-333): first failure wins, otherwise the bytes in input order. -/
def loadReferenceImages (fs : String → FileStat) :
    List String → Except String (List (List Nat))
  | [] => .ok []
  | p :: rest =>
      match fs p with
      | .missing => .error ("Error: Image not found: " ++ p)
      | .notFile => .error ("Error: Not a file: " ++ p)
      | .unreadable m => .error ("Error reading " ++ p ++ ": " ++ m)
      | .file content =>
          match loadReferenceImages fs rest with
          | .error e => .error e
          | .ok tail => .ok (content :: tail)

/-- `generate_variations(image_paths, prompt, count, aspect_ratio, size)` up
to its backend call (lines 300-343). -/
def generateVariationsStep (fs : String → FileStat) (image_paths : List String)
    (prompt : String) (count : Int) (aspect size : String) : ToolStep :=
  let count := clampVariationsCount count
  if image_paths.isEmpty then
    .validationError "Error: At least one image path is required"
  else if image_paths.length > 14 then
    .validationError "Error: Maximum 14 reference images supported"
  else if !validAspectRatios.contains aspect then
    .validationError (aspectRatioError aspect)
  else if !validImageSizes.contains size then
    .validationError (sizeError size)
  else
    match loadReferenceImages fs image_paths with
    | .error msg => .validationError msg
    | .ok refs => .generateCall prompt aspect size count (some refs)

/-! ## Spec-side view of the decoder

The spec describes the decoder over responses whose JSON has the documented
shape.  `responseOK` delimits that domain: the decoder traverses such a
response without raising any exception other than its own two
`ImageGenError`s.  `specPartImages` and friends restate the spec's
description of what is collected, so that the decoder can be compared
against it. -/

/-- The value found under `inlineData` is traversed by the decoder without a
Python-level exception: a truthy value must be a dict whose `mimeType` is a
string, and an image-typed truthy `data` must be a valid-base64 string. -/
def inlineDataOK (v : Json) : Bool :=
  if v.truthy then
    match v with
    | .obj ikvs =>
        match ikvs.lookup "mimeType" with
        | none => true
        | some (.str m) =>
            if startsWithPy m "image/" then
              match ikvs.lookup "data" with
              | none => true
              | some dv =>
                  if dv.truthy then
                    match dv with
                    | .str d => (b64decodeChars d.data).isSome
                    | _ => false
                  else true
            else true
        | some _ => false
    | _ => false
  else true

/-- A part the decoder handles without a Python-level exception. -/
def partOK (part : Json) : Bool :=
  match part with
  | .obj kvs =>
      match kvs.lookup "inlineData" with
      | none => true
      | some v => inlineDataOK v
  | _ => false

/-- A candidate the decoder handles without a Python-level exception. -/
def candidateOK (candidate : Json) : Bool :=
  match candidate with
  | .obj kvs =>
      match kvs.lookup "content" with
      | none => true
      | some (.obj ckvs) =>
          match ckvs.lookup "parts" with
          | none => true
          | some (.arr ps) => ps.all partOK
          | some _ => false
      | some _ => false
  | _ => false

/-- A response body in the decoder's documented domain: an object whose
`candidates`, when present, is an array of well-shaped candidates. -/
def responseOK (response_data : Json) : Bool :=
  match response_data with
  | .obj kvs =>
      match kvs.lookup "candidates" with
      | none => true
      | some (.arr cs) => cs.all candidateOK
      | some _ => false
  | _ => false

/-- The candidates array of a response (empty when absent), in the spec's
vocabulary. -/
def specCandidates (response_data : Json) : List Json :=
  match response_data.lookup "candidates" with
  | some (.arr cs) => cs
  | _ => []

/-- The `content.parts` list of a candidate (empty when absent). -/
def specCandidateParts (candidate : Json) : List Json :=
  match candidate.lookup "content" with
  | some content =>
      match content.lookup "parts" with
      | some (.arr ps) => ps
      | _ => []
  | none => []

/-- What the claim, as stated, says one part contributes: the base64-decoded
data field of every part carrying an inline-data object whose MIME type
starts with `image/` — including an empty or missing data field, which
decodes to the empty byte string. -/
def specPartImagesStated (part : Json) : List (List Nat) :=
  match part.lookup "inlineData" with
  | some (.obj ikvs) =>
      match ikvs.lookup "mimeType" with
      | some (.str m) =>
          if startsWithPy m "image/" then
            match (ikvs.lookup "data").getD (.str "") with
            | .str d =>
                match b64decodeChars d.data with
                | some bs => [bs]
                | none => []
            | _ => []
          else []
      | _ => []
  | _ => []

/-- The amended contribution of one part: as stated, but only when the data
field is a present, nonempty string (the decoder skips falsy data). -/
def specPartImages (part : Json) : List (List Nat) :=
  match part.lookup "inlineData" with
  | some (.obj ikvs) =>
      match ikvs.lookup "mimeType" with
      | some (.str m) =>
          if startsWithPy m "image/" then
            match ikvs.lookup "data" with
            | some (.str d) =>
                if d = "" then []
                else
                  match b64decodeChars d.data with
                  | some bs => [bs]
                  | none => []
            | _ => []
          else []
      | _ => []
  | _ => []

/-- All image bytes of a response per the claim as stated, in encounter
order. -/
def specImagesStated (response_data : Json) : List (List Nat) :=
  (specCandidates response_data).flatMap fun c =>
    (specCandidateParts c).flatMap specPartImagesStated

/-- All image bytes of a response per the amended claim, in encounter
order. -/
def specImages (response_data : Json) : List (List Nat) :=
  (specCandidates response_data).flatMap fun c =>
    (specCandidateParts c).flatMap specPartImages

/-- A response embedding one inline image part with the given base64
payload — the shape used by the round-trip claim. -/
def echoResponse (payload : String) : Json :=
  let inline : Json := .obj [("mimeType", .str "image/jpeg"), ("data", .str payload)]
  let part : Json := .obj [("inlineData", inline)]
  let content : Json := .obj [("parts", .arr [part])]
  let candidate : Json := .obj [("content", content)]
  .obj [("candidates", .arr [candidate])]

/-! ## The three claims that fail on the code, as stated -/

/-- Claim C2 as stated: over the decoder's documented domain, decoding fails
with a decode error exactly when the candidates array is absent/empty or no
image bytes are collected, and otherwise returns the base64-decoded data
field of every part carrying an inline-data object with an `image/` MIME
type. -/
def C2Statement : Prop :=
  ∀ response_data : Json, responseOK response_data = true →
    (((∃ m, extractImages response_data = .error (.genError m)) ↔
        (specCandidates response_data = [] ∨ specImagesStated response_data = [])) ∧
     (specCandidates response_data ≠ [] → specImagesStated response_data ≠ [] →
        extractImages response_data = .ok (specImagesStated response_data)))

/-- Claim C3's assertion about the chat POST, rendered over the code's error
type.  First conjunct: status 401 yields the `Unauthorized` error — a fixed
variant determined by the status alone, so the resulting error cannot depend
on the response body or text.  Second conjunct: any other status ≥ 400
yields `HttpError` carrying the status and a message extracted via
`error.message`/raw-text fallback, so two responses with equal extracted
messages yield equal errors. -/
def C3ChatStatement : Prop :=
  (∀ (loads : String → Except String Json) (count : Int)
     (jb jb' : Except String Json) (t t' : String),
     generatePromptVariations loads count (.response 401 jb t) =
       generatePromptVariations loads count (.response 401 jb' t')) ∧
  (∀ (loads : String → Except String Json) (count : Int) (st : Nat)
     (jb jb' : Except String Json) (t t' : String),
     400 ≤ st → st ≠ 401 → st ≠ 429 →
     extractErrorMessage jb t = extractErrorMessage jb' t' →
     generatePromptVariations loads count (.response st jb t) =
       generatePromptVariations loads count (.response st jb' t'))

/-- Claim C6 as stated: for every byte buffer `B`, decoding a response that
echoes the encoder's base64 payload for `B` as an inline image part yields
`B`. -/
def C6Statement : Prop :=
  ∀ B : List Nat, (∀ b ∈ B, b < 256) →
    extractImages (echoResponse (b64encode B)) = .ok [B]

/-! # Theorems

General lemmas first (base64, decoder characterization, loop lemmas), then
one theorem per claim with its witness. -/

/-- Decoding a base64 alphabet character inverts encoding a 6-bit group. -/
theorem charSextet_sextetChar : ∀ n, n < 64 → charSextet (sextetChar n) = some n := by
  decide

/-- No 6-bit group encodes to the padding character. -/
theorem sextetChar_ne_pad : ∀ n, n < 64 → sextetChar n ≠ '=' := by
  decide

/-- Strict base64 decoding inverts encoding on byte lists. -/
theorem b64decode_b64encode : ∀ bs : List Nat, (∀ b ∈ bs, b < 256) →
    b64decodeChars (b64encodeChars bs) = some bs := by
  intro bs
  induction bs using b64encodeChars.induct with
  | case1 => intro _; rfl
  | case2 a =>
      intro h
      have ha : a < 256 := h a (by simp)
      have e1 := charSextet_sextetChar (a / 4) (by omega)
      have e2 := charSextet_sextetChar (a % 4 * 16) (by omega)
      simp [b64encodeChars, b64decodeChars, e1, e2]
      omega
  | case3 a b =>
      intro h
      have ha : a < 256 := h a (by simp)
      have hb : b < 256 := h b (by simp)
      have e1 := charSextet_sextetChar (a / 4) (by omega)
      have e2 := charSextet_sextetChar (a % 4 * 16 + b / 16) (by omega)
      have e3 := charSextet_sextetChar (b % 16 * 4) (by omega)
      have ne3 := sextetChar_ne_pad (b % 16 * 4) (by omega)
      simp [b64encodeChars, b64decodeChars, e1, e2, e3, ne3]
      omega
  | case4 a b c rest ih =>
      intro h
      have ha : a < 256 := h a (by simp)
      have hb : b < 256 := h b (by simp)
      have hc : c < 256 := h c (by simp)
      have e1 := charSextet_sextetChar (a / 4) (by omega)
      have e2 := charSextet_sextetChar (a % 4 * 16 + b / 16) (by omega)
      have e3 := charSextet_sextetChar (b % 16 * 4 + c / 64) (by omega)
      have e4 := charSextet_sextetChar (c % 64) (by omega)
      have ne3 := sextetChar_ne_pad (b % 16 * 4 + c / 64) (by omega)
      have ne4 := sextetChar_ne_pad (c % 64) (by omega)
      have htail := ih (fun x hx => h x (by simp [hx]))
      simp [b64encodeChars, b64decodeChars, e1, e2, e3, e4, ne3, ne4, htail]
      omega

/-- Encoding a nonempty byte list yields a nonempty character list. -/
theorem b64encodeChars_ne_nil : ∀ bs : List Nat, bs ≠ [] → b64encodeChars bs ≠ [] := by
  intro bs h
  match bs with
  | [] => exact absurd rfl h
  | [a] => simp [b64encodeChars]
  | [a, b] => simp [b64encodeChars]
  | a :: b :: c :: rest => simp [b64encodeChars]

/-- On its documented domain, the inner loop body of `_extract_images`
collects exactly what the amended spec description says for one part. -/
theorem partImages_eq (part : Json) (hp : partOK part = true) :
    partImages part = .ok (specPartImages part) := by
  cases part with
  | obj kvs =>
      simp only [partOK] at hp
      cases hl : kvs.lookup "inlineData" with
      | none =>
          simp [partImages, Json.getD, liftEx, hl, Json.truthy, specPartImages,
                Json.lookup]
      | some v =>
          rw [hl] at hp
          cases v with
          | obj ikvs =>
              cases ikvs with
              | nil =>
                  simp [partImages, Json.getD, liftEx, hl, Json.truthy,
                        specPartImages, Json.lookup]
              | cons kv0 ikvs0 =>
                  have htru : (Json.obj (kv0 :: ikvs0)).truthy = true := by
                    simp [Json.truthy]
                  simp only [inlineDataOK, htru, if_true] at hp
                  cases hm : (kv0 :: ikvs0).lookup "mimeType" with
                  | none =>
                      have hsw : startsWithPy "" "image/" = false := by decide
                      simp [partImages, Json.getD, liftEx, hl, hm, Json.truthy,
                            specPartImages, Json.lookup, hsw]
                  | some mv =>
                      simp only [hm] at hp
                      cases mv with
                      | str m =>
                          cases him : startsWithPy m "image/" with
                          | true =>
                              simp only [him, if_true] at hp
                              cases hd : (kv0 :: ikvs0).lookup "data" with
                              | none =>
                                  simp [partImages, Json.getD, liftEx, hl, hm, hd,
                                        Json.truthy, him, specPartImages, Json.lookup]
                              | some dv =>
                                  simp only [hd] at hp
                                  cases hdv : dv.truthy with
                                  | false =>
                                      cases dv with
                                      | str d =>
                                          obtain ⟨cs⟩ := d
                                          have hcs : cs = [] := by simpa [Json.truthy] using hdv
                                          subst hcs
                                          simp [partImages, Json.getD, liftEx, hl, hm,
                                                hd, Json.truthy, him, specPartImages,
                                                Json.lookup]
                                      | null =>
                                          simp [partImages, Json.getD, liftEx, hl, hm,
                                                hd, Json.truthy, him, specPartImages,
                                                Json.lookup]
                                      | bool b =>
                                          have hb : b = false := by simpa [Json.truthy] using hdv
                                          subst hb
                                          simp [partImages, Json.getD, liftEx, hl, hm,
                                                hd, Json.truthy, him, specPartImages,
                                                Json.lookup]
                                      | num n =>
                                          have hn : n = 0 := by simpa [Json.truthy] using hdv
                                          subst hn
                                          simp [partImages, Json.getD, liftEx, hl, hm,
                                                hd, Json.truthy, him,
                                                specPartImages, Json.lookup]
                                      | arr xs =>
                                          have hxs : xs = [] := by simpa [Json.truthy] using hdv
                                          subst hxs
                                          simp [partImages, Json.getD, liftEx, hl, hm,
                                                hd, Json.truthy, him,
                                                specPartImages, Json.lookup]
                                      | obj okvs =>
                                          have ho : okvs = [] := by simpa [Json.truthy] using hdv
                                          subst ho
                                          simp [partImages, Json.getD, liftEx, hl, hm,
                                                hd, Json.truthy, him,
                                                specPartImages, Json.lookup]
                                  | true =>
                                      simp only [hdv, if_true] at hp
                                      cases dv with
                                      | str d =>
                                          obtain ⟨bs, hbs⟩ :=
                                            Option.isSome_iff_exists.mp hp
                                          have hdne : d ≠ "" := by
                                            intro heq
                                            rw [heq] at hdv
                                            exact absurd hdv (by decide)
                                          simp [partImages, Json.getD, liftEx, hl, hm,
                                                hd, Json.truthy, hdv, him, hbs, hdne,
                                                specPartImages, Json.lookup]
                                          simpa [Json.truthy] using hdv
                                      | null => simp at hp
                                      | bool b => simp at hp
                                      | num n => simp at hp
                                      | arr xs => simp at hp
                                      | obj okvs => simp at hp
                          | false =>
                              simp [partImages, Json.getD, liftEx, hl, hm, Json.truthy,
                                    him, specPartImages, Json.lookup]
                      | null => simp at hp
                      | bool b => simp at hp
                      | num n => simp at hp
                      | arr xs => simp at hp
                      | obj okvs => simp at hp
          | null =>
              simp [partImages, Json.getD, liftEx, hl, Json.truthy, specPartImages,
                    Json.lookup]
          | bool b =>
              simp only [inlineDataOK, Json.truthy] at hp
              cases b with
              | false =>
                  simp [partImages, Json.getD, liftEx, hl, Json.truthy,
                        specPartImages, Json.lookup]
              | true => simp at hp
          | num n =>
              simp only [inlineDataOK, Json.truthy] at hp
              by_cases hn : n = 0
              · subst hn
                simp [partImages, Json.getD, liftEx, hl, Json.truthy,
                      specPartImages, Json.lookup]
              · simp [hn] at hp
          | str s =>
              simp only [inlineDataOK, Json.truthy] at hp
              obtain ⟨cs⟩ := s
              cases cs with
              | nil =>
                  simp [partImages, Json.getD, liftEx, hl, Json.truthy,
                        specPartImages, Json.lookup]
              | cons c cs0 => simp at hp
          | arr xs =>
              simp only [inlineDataOK, Json.truthy] at hp
              cases xs with
              | nil =>
                  simp [partImages, Json.getD, liftEx, hl, Json.truthy,
                        specPartImages, Json.lookup]
              | cons x xs0 => simp at hp
  | null => simp [partOK] at hp
  | bool b => simp [partOK] at hp
  | num n => simp [partOK] at hp
  | str s => simp [partOK] at hp
  | arr xs => simp [partOK] at hp

/-- The inner loop over a list of well-shaped parts collects the parts'
contributions in order. -/
theorem partsImages_eq (ps : List Json) (hp : ps.all partOK = true) :
    partsImages ps = .ok (ps.flatMap specPartImages) := by
  induction ps with
  | nil => rfl
  | cons p rest ih =>
      simp only [List.all_cons, Bool.and_eq_true] at hp
      simp [partsImages, partImages_eq p hp.1, ih hp.2]

/-- One well-shaped candidate contributes exactly the images of its
`content.parts`. -/
theorem candidateImages_eq (c : Json) (hc : candidateOK c = true) :
    candidateImages c = .ok ((specCandidateParts c).flatMap specPartImages) := by
  cases c with
  | obj kvs =>
      simp only [candidateOK] at hc
      cases hl : kvs.lookup "content" with
      | none =>
          simp [candidateImages, Json.getD, liftEx, hl, Json.toIter, partsImages,
                specCandidateParts, Json.lookup]
      | some cv =>
          simp only [hl] at hc
          cases cv with
          | obj ckvs =>
              cases hps : ckvs.lookup "parts" with
              | none =>
                  simp [candidateImages, Json.getD, liftEx, hl, hps, Json.toIter,
                        partsImages, specCandidateParts, Json.lookup]
              | some pv =>
                  simp only [hps] at hc
                  cases pv with
                  | arr ps =>
                      simp [candidateImages, Json.getD, liftEx, hl, hps, Json.toIter,
                            specCandidateParts, Json.lookup, partsImages_eq ps hc]
                  | null => simp at hc
                  | bool b => simp at hc
                  | num n => simp at hc
                  | str s => simp at hc
                  | obj okvs => simp at hc
          | null => simp at hc
          | bool b => simp at hc
          | num n => simp at hc
          | str s => simp at hc
          | arr xs => simp at hc
  | null => simp [candidateOK] at hc
  | bool b => simp [candidateOK] at hc
  | num n => simp [candidateOK] at hc
  | str s => simp [candidateOK] at hc
  | arr xs => simp [candidateOK] at hc

/-- The outer loop over well-shaped candidates collects all contributions in
order. -/
theorem candidatesImages_eq (cs : List Json) (hc : cs.all candidateOK = true) :
    candidatesImages cs =
      .ok (cs.flatMap fun c => (specCandidateParts c).flatMap specPartImages) := by
  induction cs with
  | nil => rfl
  | cons c rest ih =>
      simp only [List.all_cons, Bool.and_eq_true] at hc
      simp [candidatesImages, candidateImages_eq c hc.1, ih hc.2]

/-- Characterization of `_extract_images` on its documented domain: raise on
an absent/empty candidates array, raise when nothing is collected, and
otherwise return the collected images. -/
theorem extractImages_eq (r : Json) (hr : responseOK r = true) :
    (specCandidates r = [] →
       extractImages r = .error (.genError "No candidates in API response"))
    ∧ (specCandidates r ≠ [] → specImages r = [] →
       extractImages r = .error (.genError "No images found in API response"))
    ∧ (specCandidates r ≠ [] → specImages r ≠ [] →
       extractImages r = .ok (specImages r)) := by
  cases r with
  | obj kvs =>
      simp only [responseOK] at hr
      cases hl : kvs.lookup "candidates" with
      | none =>
          have hspecc : specCandidates (Json.obj kvs) = [] := by
            simp [specCandidates, Json.lookup, hl]
          refine ⟨fun _ => ?_, fun h _ => absurd hspecc h, fun h _ => absurd hspecc h⟩
          simp [extractImages, Json.getD, liftEx, hl, Json.truthy]
      | some cv =>
          simp only [hl] at hr
          cases cv with
          | arr cs =>
              have hspecc : specCandidates (Json.obj kvs) = cs := by
                simp [specCandidates, Json.lookup, hl]
              have hspeci : specImages (Json.obj kvs) =
                  cs.flatMap fun c => (specCandidateParts c).flatMap specPartImages := by
                simp [specImages, hspecc]
              cases cs with
              | nil =>
                  refine ⟨fun _ => ?_, fun h _ => absurd hspecc h, fun h _ => absurd hspecc h⟩
                  simp [extractImages, Json.getD, liftEx, hl, Json.truthy]
              | cons c0 rest =>
                  have himgs := candidatesImages_eq (c0 :: rest) hr
                  have hext : extractImages (Json.obj kvs) =
                      if ((c0 :: rest).flatMap fun c =>
                            (specCandidateParts c).flatMap specPartImages).isEmpty then
                        Except.error (ExtractErr.genError "No images found in API response")
                      else Except.ok ((c0 :: rest).flatMap fun c =>
                            (specCandidateParts c).flatMap specPartImages) := by
                    simp [extractImages, Json.getD, liftEx, hl, Json.truthy,
                          Json.toIter, himgs]
                  refine ⟨fun h => by rw [hspecc] at h; simp at h,
                          fun _ hL => ?_, fun _ hL => ?_⟩
                  · rw [hspeci] at hL
                    rw [hext, if_pos (List.isEmpty_iff.mpr hL)]
                  · rw [hspeci] at hL
                    rw [hext, if_neg (fun hh => hL (List.isEmpty_iff.mp hh)), hspeci]
          | null => simp at hr
          | bool b => simp at hr
          | num n => simp at hr
          | str s => simp at hr
          | obj okvs => simp at hr
  | null => simp [responseOK] at hr
  | bool b => simp [responseOK] at hr
  | num n => simp [responseOK] at hr
  | str s => simp [responseOK] at hr
  | arr xs => simp [responseOK] at hr

/-- C2 (counterexample): the claim as stated is false.  At the concrete
well-shaped response whose only part carries an inline-data object with MIME
type `image/jpeg` and data `""`, the claim predicts the successful result
`[b""]` (the base64 decoding of the empty data field), but the decoder skips
falsy data fields and raises `No images found in API response`. -/
theorem C2_counterexample : ¬ C2Statement := by
  intro h
  have h2 := (h (echoResponse "") (by decide)).2
    (fun hh => List.noConfusion hh) (fun hh => List.noConfusion hh)
  rw [show extractImages (echoResponse "") =
        Except.error (ExtractErr.genError "No images found in API response") from rfl] at h2
  exact Except.noConfusion h2

/-- C2 (amended): over the decoder's documented domain, `_extract_images`
fails with a decode error exactly when the candidates array is absent/empty
or when scanning collects no image bytes, and otherwise returns, in
encounter order, the base64-decoded data field of every part carrying an
inline-data object whose MIME type starts with `image/` and whose data field
is a present, nonempty string (a part with an image MIME type but empty or
missing data contributes nothing). -/
theorem C2_decode_error_iff (response_data : Json)
    (hr : responseOK response_data = true) :
    ((∃ m, extractImages response_data = .error (.genError m)) ↔
       (specCandidates response_data = [] ∨ specImages response_data = []))
    ∧ (specCandidates response_data ≠ [] → specImages response_data ≠ [] →
       extractImages response_data = .ok (specImages response_data)) := by
  obtain ⟨h1, h2, h3⟩ := extractImages_eq response_data hr
  refine ⟨⟨?_, ?_⟩, h3⟩
  · rintro ⟨m, hm⟩
    by_contra hcon
    push_neg at hcon
    obtain ⟨hc, hi⟩ := hcon
    rw [h3 hc hi] at hm
    exact Except.noConfusion hm
  · rintro (hc | hi)
    · exact ⟨_, h1 hc⟩
    · by_cases hc : specCandidates response_data = []
      · exact ⟨_, h1 hc⟩
      · exact ⟨_, h2 hc hi⟩

/-- C2 (witness): a well-shaped response with one inline image part decodes
to the one-element list of the base64-decoded bytes (`"QUJD"` is `b"ABC"`). -/
theorem C2_decode_error_iff_witness :
    responseOK (echoResponse "QUJD") = true ∧
    extractImages (echoResponse "QUJD") = .ok [[65, 66, 67]] :=
  ⟨by decide,
   (C2_decode_error_iff (echoResponse "QUJD") (by decide)).2
     (fun hh => List.noConfusion hh) (fun hh => List.noConfusion hh)⟩

/-- C6 (counterexample): the round-trip claim fails at the empty byte
buffer: its base64 payload is the empty string, which the decoder skips as
falsy, so decoding raises instead of yielding `b""`. -/
theorem C6_counterexample : ¬ C6Statement := by
  intro h
  have h0 := h [] (by simp)
  rw [show extractImages (echoResponse (b64encode [])) =
        Except.error (ExtractErr.genError "No images found in API response") from rfl] at h0
  exact Except.noConfusion h0

/-- C6 (amended): for every nonempty byte buffer `B`, the encoder embeds
`B` as a base64 inline-data part, and decoding a response echoing that
payload as an inline image part yields exactly `[B]`. -/
theorem C6_roundtrip (p a s : String) (B : List Nat)
    (hne : B ≠ []) (hB : ∀ b ∈ B, b < 256) :
    (buildRequestBody p a s (some [B])).lookup "contents" =
      some (.arr [.obj [("parts", .arr [mkInlinePart B, .obj [("text", .str p)]])]])
    ∧ (mkInlinePart B).lookup "inlineData" =
      some (.obj [("mimeType", .str "image/jpeg"), ("data", .str (b64encode B))])
    ∧ extractImages (echoResponse (b64encode B)) = .ok [B] := by
  refine ⟨rfl, rfl, ?_⟩
  have hdata : (b64encode B).data = b64encodeChars B := rfl
  have hdec : b64decodeChars (b64encodeChars B) = some B := b64decode_b64encode B hB
  have htr : (b64encodeChars B).isEmpty = false := by
    cases hcs : b64encodeChars B with
    | nil => exact absurd hcs (b64encodeChars_ne_nil B hne)
    | cons x t => rfl
  have hsw : startsWithPy "image/jpeg" "image/" = true := by decide
  have hlkm : List.lookup "mimeType"
      [("mimeType", Json.str "image/jpeg"), ("data", Json.str (b64encode B))] =
      some (Json.str "image/jpeg") := rfl
  have hlkd : List.lookup "data"
      [("mimeType", Json.str "image/jpeg"), ("data", Json.str (b64encode B))] =
      some (Json.str (b64encode B)) := rfl
  simp [extractImages, echoResponse, Json.getD, liftEx, Json.truthy, Json.toIter,
        candidatesImages, candidateImages, partsImages, partImages, Json.lookup,
        hlkm, hlkd, hdata, htr, hsw, hdec]

/-- C6 (witness): the round trip at the concrete buffer `[72, 105]`
(`b"Hi"`, payload `"SGk="`). -/
theorem C6_roundtrip_witness :
    extractImages (echoResponse "SGk=") = .ok [[72, 105]] :=
  (C6_roundtrip "p" "1:1" "2K" [72, 105] (by decide) (by decide)).2.2

/-- C3 (counterexample): the chat POST does not map 401 to the fixed
`Unauthorized` error (its error embeds the response text, so it differs
between two 401 responses with different bodies), refuting the claim that
both transport operations share the stated failure mapping. -/
theorem C3_counterexample : ¬ C3ChatStatement := by
  intro h
  have h401 := h.1 (fun _ => Except.error "unused") 1 (.error "x") (.error "x") "a" "b"
  rw [show generatePromptVariations (fun _ => Except.error "unused") 1
        (.response 401 (.error "x") "a") =
        Except.error (.raised ⟨"LLM API error: a", some 401⟩) from rfl,
      show generatePromptVariations (fun _ => Except.error "unused") 1
        (.response 401 (.error "x") "b") =
        Except.error (.raised ⟨"LLM API error: b", some 401⟩) from rfl] at h401
  simp at h401

/-- C3 (amended): the generation POST maps failures in priority order —
timeout, request-level failure, 401, 429, then any other status ≥ 400 with
the `error.message`/raw-text extraction; the chat POST maps timeout and
request-level failures likewise, but maps every status ≥ 400 (401 and 429
included) to an error carrying the status and the raw response text, with no
JSON message extraction. -/
theorem C3_failure_mapping (loads : String → Except String Json) (count : Int)
    (m t : String) (jb : Except String Json) (st : Nat) :
    singleGenerate .timeout =
      .error ⟨"Request timed out. Try a smaller image size or simpler prompt.", none⟩
    ∧ singleGenerate (.requestError m) = .error ⟨"Network error: " ++ m, none⟩
    ∧ singleGenerate (.response 401 jb t) = .error ⟨"Invalid API key", some 401⟩
    ∧ singleGenerate (.response 429 jb t) =
        .error ⟨"Rate limit exceeded. Please wait before trying again.", some 429⟩
    ∧ (400 ≤ st → st ≠ 401 → st ≠ 429 →
        singleGenerate (.response st jb t) =
          .error ⟨"API error: " ++ extractErrorMessage jb t, some st⟩)
    ∧ generatePromptVariations loads count .timeout =
        .error (.raised ⟨"Prompt variation request timed out.", none⟩)
    ∧ generatePromptVariations loads count (.requestError m) =
        .error (.raised ⟨"Network error during prompt variation: " ++ m, none⟩)
    ∧ (400 ≤ st →
        generatePromptVariations loads count (.response st (jb) t) =
          .error (.raised ⟨"LLM API error: " ++ t, some st⟩)) := by
  refine ⟨rfl, rfl, rfl, ?_, ?_, rfl, rfl, ?_⟩
  · simp [singleGenerate]
  · intro h4 h401 h429
    simp [singleGenerate, h401, h429, h4]
  · intro h4
    simp [generatePromptVariations, h4]

/-- C3 (witness): the two mappings at a concrete 500 response whose body
does not parse as JSON. -/
theorem C3_failure_mapping_witness :
    singleGenerate (.response 500 (.error "e") "body") =
      .error ⟨"API error: body", some 500⟩
    ∧ generatePromptVariations (fun _ => Except.error "unused") 3
        (.response 500 (.error "e") "body") =
      .error (.raised ⟨"LLM API error: body", some 500⟩) := by
  have h := C3_failure_mapping (fun _ => Except.error "unused") 3 "m" "body"
    (.error "e") 500
  exact ⟨h.2.2.2.2.1 (by decide) (by decide) (by decide),
         h.2.2.2.2.2.2.2 (by decide)⟩

/-- In the generation loop, if the calls before offset `m` succeed and the
call at offset `m` (within the remaining budget `k`) raises, the loop's
result is that error — the accumulator is discarded. -/
theorem generateLoop_first_error (outcomes : Nat → HttpOutcome) (e : ImageGenError) :
    ∀ (m k base : Nat) (acc : List (List Nat)),
      m < k →
      singleGenerate (outcomes (base + m)) = .error e →
      (∀ j, j < m → ∃ img, singleGenerate (outcomes (base + j)) = .ok img) →
      (generateLoop outcomes base k acc).1 = .error e := by
  intro m
  induction m with
  | zero =>
      intro k base acc hk herr _
      match k, hk with
      | k' + 1, _ =>
          rw [Nat.add_zero] at herr
          simp [generateLoop, herr]
  | succ m ih =>
      intro k base acc hk herr hok
      match k, hk with
      | k' + 1, _ =>
          obtain ⟨img, himg⟩ := hok 0 (Nat.succ_pos m)
          rw [Nat.add_zero] at himg
          simp only [generateLoop, himg]
          apply ih k' (base + 1) (acc ++ [img]) (by omega)
          · have heq : base + 1 + m = base + (m + 1) := by omega
            rw [heq]
            exact herr
          · intro j hj
            have heq : base + 1 + j = base + (j + 1) := by omega
            rw [heq]
            exact hok (j + 1) (by omega)

/-- C1: if the `i`-th underlying single-image call of `generate` raises an
error and all earlier calls succeed, the whole operation returns that first
error — no partial image list is returned (the `Except.error` result carries
no images). -/
theorem C1_first_error_aborts (outcomes : Nat → HttpOutcome) (num_images : Int)
    (i : Nat) (e : ImageGenError)
    (hi : i < num_images.toNat)
    (herr : singleGenerate (outcomes i) = .error e)
    (hok : ∀ j, j < i → ∃ img, singleGenerate (outcomes j) = .ok img) :
    (clientGenerate outcomes num_images).1 = .error e := by
  unfold clientGenerate
  exact generateLoop_first_error outcomes e i num_images.toNat 0 [] hi
    (by simpa using herr) (by simpa using hok)

/-- C1 (witness): three requested images, the first call succeeding and the
second timing out: the whole `generate` returns the timeout error. -/
theorem C1_first_error_aborts_witness :
    (clientGenerate
        (fun j => if j = 0 then .response 200 (.ok (echoResponse "QUJD")) "" else .timeout)
        3).1 =
      .error ⟨"Request timed out. Try a smaller image size or simpler prompt.", none⟩ := by
  apply C1_first_error_aborts
    (fun j => if j = 0 then .response 200 (.ok (echoResponse "QUJD")) "" else .timeout)
    3 1 ⟨"Request timed out. Try a smaller image size or simpler prompt.", none⟩
    (by decide) rfl
  intro j hj
  have hj0 : j = 0 := by omega
  subst hj0
  exact ⟨[65, 66, 67], rfl⟩

/-- C10: with `num_images <= 0`, `generate` performs no backend call and
returns the empty list successfully — the client does not validate
`num_images` against the documented 1-4 range, so an empty success is
reachable at this interface. -/
theorem C10_nonpositive_num_images (outcomes : Nat → HttpOutcome)
    (num_images : Int) (h : num_images ≤ 0) :
    clientGenerate outcomes num_images = (.ok [], 0) := by
  unfold clientGenerate
  rw [Int.toNat_of_nonpos h]
  rfl

/-- C10 (witness): `num_images = -2` yields the empty list with zero
backend calls. -/
theorem C10_nonpositive_num_images_witness :
    clientGenerate (fun _ => HttpOutcome.timeout) (-2) = (.ok [], 0) :=
  C10_nonpositive_num_images _ (-2) (by decide)

/-- C5: when the chat response parses and its `variations` value is an array
of strings, `generate_prompt_variations` fails with the count-mismatch error
when the array's length differs from `count`, and returns exactly those
strings in order when it matches. -/
theorem C5_variation_count (loads : String → Except String Json) (count : Int)
    (st : Nat) (text content : String)
    (topExtra mExtra cExtra kvs : List (String × Json))
    (choicesRest : List Json) (vs : List String)
    (hst : st < 400)
    (hloads : loads content = .ok (.obj kvs))
    (hvars : kvs.lookup "variations" = some (.arr (vs.map Json.str))) :
    (((vs.length : Int) ≠ count →
       generatePromptVariations loads count (.response st (.ok (Json.obj
           (("choices", Json.arr (Json.obj (("message", Json.obj (("content",
             Json.str content) :: mExtra)) :: cExtra) :: choicesRest)) :: topExtra)))
           text) =
         .error (.raised ⟨"Expected " ++ toString count ++ " variations, got " ++
           toString vs.length, none⟩))
     ∧ ((vs.length : Int) = count →
       generatePromptVariations loads count (.response st (.ok (Json.obj
           (("choices", Json.arr (Json.obj (("message", Json.obj (("content",
             Json.str content) :: mExtra)) :: cExtra) :: choicesRest)) :: topExtra)))
           text) =
         .ok (.arr (vs.map Json.str)))) := by
  have hle : ¬ (400 ≤ st) := by omega
  constructor
  · intro hcount
    simp [generatePromptVariations, hle, liftChat, Json.subscriptKey,
          Json.subscriptIdx, List.lookup, jsonLoads, hloads, Json.getD,
          hvars, Json.pyLen, List.length_map, hcount]
  · intro hcount
    simp [generatePromptVariations, hle, liftChat, Json.subscriptKey,
          Json.subscriptIdx, List.lookup, jsonLoads, hloads, Json.getD,
          hvars, Json.pyLen, List.length_map, hcount]

/-- C5 (witness): a backend returning 2 variations against `count = 3`
fails with the mismatch error; against `count = 2` it returns them in
order. -/
theorem C5_variation_count_witness :
    generatePromptVariations
        (fun _ => Except.ok (Json.obj [("variations",
          Json.arr [Json.str "v1", Json.str "v2"])]))
        3 (.response 200 (.ok (Json.obj [("choices", Json.arr [Json.obj [("message",
          Json.obj [("content", Json.str "c")])]])])) "t") =
      .error (.raised ⟨"Expected 3 variations, got 2", none⟩)
    ∧ generatePromptVariations
        (fun _ => Except.ok (Json.obj [("variations",
          Json.arr [Json.str "v1", Json.str "v2"])]))
        2 (.response 200 (.ok (Json.obj [("choices", Json.arr [Json.obj [("message",
          Json.obj [("content", Json.str "c")])]])])) "t") =
      .ok (Json.arr [Json.str "v1", Json.str "v2"]) := by
  constructor
  · exact (C5_variation_count
      (fun _ => Except.ok (Json.obj [("variations",
        Json.arr [Json.str "v1", Json.str "v2"])]))
      3 200 "t" "c" [] [] [] [("variations", Json.arr [Json.str "v1", Json.str "v2"])]
      [] ["v1", "v2"] (by decide) rfl rfl).1 (by decide)
  · exact (C5_variation_count
      (fun _ => Except.ok (Json.obj [("variations",
        Json.arr [Json.str "v1", Json.str "v2"])]))
      2 200 "t" "c" [] [] [] [("variations", Json.arr [Json.str "v1", Json.str "v2"])]
      [] ["v1", "v2"] (by decide) rfl rfl).2 (by decide)

/-- C4: for a valid aspect ratio and size and any `k` reference images, the
encoder's output has one content block whose parts list has `k + 1`
elements — the first `k` the inline-data parts with the base64-encoded
reference bytes in input order and an image MIME type, the last the text
part with the prompt — and a sibling `generationConfig` declaring both TEXT
and IMAGE modalities with the aspect ratio and size nested under
`imageConfig`. -/
theorem C4_request_body (prompt aspect size : String) (refs : List (List Nat))
    (ha : aspect ∈ validAspectRatios) (hs : size ∈ validImageSizes) :
    (buildRequestBody prompt aspect size (some refs)).lookup "contents" =
      some (.arr [.obj [("parts",
        .arr (refs.map mkInlinePart ++ [.obj [("text", .str prompt)]]))]])
    ∧ (refs.map mkInlinePart ++ [Json.obj [("text", Json.str prompt)]]).length =
        refs.length + 1
    ∧ (∀ i, (h : i < refs.length) →
        (refs.map mkInlinePart ++ [Json.obj [("text", Json.str prompt)]])[i]? =
          some (.obj [("inlineData", .obj [("mimeType", .str "image/jpeg"),
            ("data", .str (b64encode refs[i]))])]))
    ∧ (refs.map mkInlinePart ++ [Json.obj [("text", Json.str prompt)]])[refs.length]? =
        some (.obj [("text", .str prompt)])
    ∧ (buildRequestBody prompt aspect size (some refs)).lookup "generationConfig" =
        some (.obj [("responseModalities", .arr [.str "TEXT", .str "IMAGE"]),
          ("imageConfig", .obj [("aspectRatio", .str aspect),
            ("imageSize", .str size)])]) := by
  refine ⟨rfl, by simp, ?_, ?_, rfl⟩
  · intro i h
    rw [List.getElem?_append]
    simp [List.length_map, h, List.getElem?_map, List.getElem?_eq_getElem,
          mkInlinePart]
  · rw [List.getElem?_append_right (by simp)]
    simp

/-- C4 (witness): the encoder at `k = 2` concrete reference buffers. -/
theorem C4_request_body_witness :
    (["1:1"].head? = some "1:1" → True)
    ∧ ([[1], [2]].map mkInlinePart ++
        [Json.obj [("text", Json.str "p")]])[0]? =
        some (Json.obj [("inlineData", Json.obj [("mimeType", Json.str "image/jpeg"),
          ("data", Json.str "AQ==")])])
    ∧ ([[1], [2]].map mkInlinePart ++
        [Json.obj [("text", Json.str "p")]])[2]? =
        some (Json.obj [("text", Json.str "p")])
    ∧ (buildRequestBody "p" "1:1" "2K" (some [[1], [2]])).lookup "generationConfig" =
        some (Json.obj [("responseModalities", Json.arr [Json.str "TEXT",
          Json.str "IMAGE"]), ("imageConfig", Json.obj [("aspectRatio",
          Json.str "1:1"), ("imageSize", Json.str "2K")])]) := by
  have h := C4_request_body "p" "1:1" "2K" [[1], [2]] (by decide) (by decide)
  exact ⟨fun _ => trivial, h.2.2.1 0 (by decide), h.2.2.2.1, h.2.2.2.2⟩

/-- If some listed path is not a readable file, the reference-image loading
loop fails with the first such error. -/
theorem loadReferenceImages_fails (fs : String → FileStat) :
    ∀ paths : List String, (∃ p ∈ paths, ∀ c, fs p ≠ .file c) →
      ∃ msg, loadReferenceImages fs paths = .error msg := by
  intro paths
  induction paths with
  | nil => rintro ⟨p, hp, _⟩; exact absurd hp (by simp)
  | cons q rest ih =>
      rintro ⟨p, hp, hbad⟩
      cases hq : fs q with
      | missing =>
          exact ⟨"Error: Image not found: " ++ q, by simp [loadReferenceImages, hq]⟩
      | notFile =>
          exact ⟨"Error: Not a file: " ++ q, by simp [loadReferenceImages, hq]⟩
      | unreadable m =>
          exact ⟨"Error reading " ++ q ++ ": " ++ m,
                 by simp [loadReferenceImages, hq]⟩
      | file content =>
          have hpr : p ∈ rest := by
            rcases List.mem_cons.mp hp with h | h
            · subst h; exact absurd hq (hbad content)
            · exact h
          obtain ⟨msg, hmsg⟩ := ih ⟨p, hpr, hbad⟩
          exact ⟨msg, by simp [loadReferenceImages, hq, hmsg]⟩

/-- C7: an invalid aspect ratio, an invalid size, or a reference-image path
that does not exist or is not a readable file makes the tool return a
validation error before its backend call — the client is never invoked on
such inputs. -/
theorem C7_validation_before_network (prompt aspect size : String)
    (fs : String → FileStat) (paths : List String) (count : Int) :
    ((aspect ∉ validAspectRatios ∨ size ∉ validImageSizes) →
       (generateImageStep prompt aspect size).isValidationError = true)
    ∧ ((aspect ∉ validAspectRatios ∨ size ∉ validImageSizes ∨
        (∃ p ∈ paths, ∀ c, fs p ≠ .file c)) →
       (generateVariationsStep fs paths prompt count aspect size).isValidationError
         = true) := by
  constructor
  · intro h
    by_cases hma : aspect ∈ validAspectRatios
    · by_cases hms : size ∈ validImageSizes
      · rcases h with h | h
        · exact absurd hma h
        · exact absurd hms h
      · simp [generateImageStep, hma, hms, ToolStep.isValidationError]
    · simp [generateImageStep, hma, ToolStep.isValidationError]
  · intro h
    cases hpe : paths.isEmpty with
    | true => simp [generateVariationsStep, hpe, ToolStep.isValidationError]
    | false =>
        by_cases hlen : paths.length > 14
        · simp [generateVariationsStep, hpe, hlen, ToolStep.isValidationError]
        · by_cases hma : aspect ∈ validAspectRatios
          · by_cases hms : size ∈ validImageSizes
            · rcases h with h | h | h
              · exact absurd hma h
              · exact absurd hms h
              · obtain ⟨msg, hmsg⟩ := loadReferenceImages_fails fs paths h
                simp [generateVariationsStep, hpe, hlen, hma, hms, hmsg,
                      ToolStep.isValidationError]
            · simp [generateVariationsStep, hpe, hlen, hma, hms,
                    ToolStep.isValidationError]
          · simp [generateVariationsStep, hpe, hlen, hma,
                  ToolStep.isValidationError]

/-- C7 (witness): an invalid ratio stops `generate_image`, and a missing
reference file stops `generate_variations`, both before any backend call. -/
theorem C7_validation_before_network_witness :
    (generateImageStep "p" "7:5" "2K").isValidationError = true
    ∧ (generateVariationsStep (fun _ => FileStat.missing) ["ref.jpg"] "p" 4
        "1:1" "2K").isValidationError = true := by
  constructor
  · exact (C7_validation_before_network "p" "7:5" "2K" (fun _ => FileStat.missing)
      ["ref.jpg"] 4).1 (Or.inl (by decide))
  · exact (C7_validation_before_network "p" "1:1" "2K" (fun _ => FileStat.missing)
      ["ref.jpg"] 4).2
      (Or.inr (Or.inr ⟨"ref.jpg", by simp, fun c h => FileStat.noConfusion h⟩))

/-- C9: `generate_multiple` silently clamps its count into `[2, 4]` and
`generate_variations` into `[1, 4]`; an in-range count is unchanged, an
out-of-range count is never reported as an error, and with valid remaining
inputs the backend call requests exactly the clamped count. -/
theorem C9_count_clamping (count : Int) (prompt aspect size : String)
    (fs : String → FileStat) (paths : List String) (refs : List (List Nat)) :
    (2 ≤ clampMultipleCount count ∧ clampMultipleCount count ≤ 4)
    ∧ (2 ≤ count → count ≤ 4 → clampMultipleCount count = count)
    ∧ (1 ≤ clampVariationsCount count ∧ clampVariationsCount count ≤ 4)
    ∧ (1 ≤ count → count ≤ 4 → clampVariationsCount count = count)
    ∧ (aspect ∈ validAspectRatios → size ∈ validImageSizes →
        generateMultipleStep prompt count aspect size =
          .generateCall prompt aspect size (clampMultipleCount count) none)
    ∧ (aspect ∈ validAspectRatios → size ∈ validImageSizes →
        paths ≠ [] → paths.length ≤ 14 →
        loadReferenceImages fs paths = .ok refs →
        generateVariationsStep fs paths prompt count aspect size =
          .generateCall prompt aspect size (clampVariationsCount count) (some refs)) := by
  refine ⟨?_, ?_, ?_, ?_, ?_, ?_⟩
  · unfold clampMultipleCount
    split
    · omega
    · split <;> omega
  · intro h2 h4
    unfold clampMultipleCount
    split
    · omega
    · split
      · omega
      · rfl
  · unfold clampVariationsCount
    split
    · omega
    · split <;> omega
  · intro h1 h4
    unfold clampVariationsCount
    split
    · omega
    · split
      · omega
      · rfl
  · intro ha hs
    simp [generateMultipleStep, ha, hs]
  · intro ha hs hne hlen hload
    have hpe : paths.isEmpty = false := by
      cases paths with
      | nil => exact absurd rfl hne
      | cons q rest => rfl
    have h14 : ¬ (paths.length > 14) := by omega
    simp [generateVariationsStep, hpe, h14, ha, hs, hload]

/-- C9 (witness): count 9 is clamped to 4 by `generate_multiple` and count
0 to 1 by `generate_variations`, with the clamped value passed to the
backend call and no error returned. -/
theorem C9_count_clamping_witness :
    generateMultipleStep "p" 9 "1:1" "2K" =
      .generateCall "p" "1:1" "2K" 4 none
    ∧ generateVariationsStep (fun _ => FileStat.file [7]) ["r.jpg"] "p" 0
        "1:1" "2K" =
      .generateCall "p" "1:1" "2K" 1 (some [[7]]) := by
  constructor
  · exact (C9_count_clamping 9 "p" "1:1" "2K" (fun _ => FileStat.file [7])
      ["r.jpg"] [[7]]).2.2.2.2.1 (by decide) (by decide)
  · exact (C9_count_clamping 0 "p" "1:1" "2K" (fun _ => FileStat.file [7])
      ["r.jpg"] [[7]]).2.2.2.2.2 (by decide) (by decide) (by simp) (by decide) rfl

/-- A name returned by the collision loop is not occupied. -/
theorem resolveCollisionLoop_free (occupied : String → Bool) (stem : String) :
    ∀ (fuel counter : Nat) (current name : String),
      resolveCollisionLoop occupied stem fuel counter current = some name →
      occupied name = false := by
  intro fuel
  induction fuel with
  | zero => intro counter current name h; exact Option.noConfusion h
  | succ f ih =>
      intro counter current name h
      rw [resolveCollisionLoop] at h
      cases hoc : occupied current with
      | true =>
          rw [hoc] at h
          simp only [if_true] at h
          exact ih _ _ _ h
      | false =>
          rw [hoc] at h
          simp only [Bool.false_eq_true, if_false, Option.some.injEq] at h
          subst h
          exact hoc

/-- A name returned by the collision loop is either the starting candidate
or carries a numeric suffix at least the starting counter. -/
theorem resolveCollisionLoop_shape (occupied : String → Bool) (stem : String) :
    ∀ (fuel counter : Nat) (current name : String),
      resolveCollisionLoop occupied stem fuel counter current = some name →
      name = current ∨
        ∃ k, counter ≤ k ∧ name = stem ++ "_" ++ toString k ++ ".jpg" := by
  intro fuel
  induction fuel with
  | zero => intro counter current name h; exact Option.noConfusion h
  | succ f ih =>
      intro counter current name h
      rw [resolveCollisionLoop] at h
      cases hoc : occupied current with
      | false =>
          rw [hoc] at h
          simp only [Bool.false_eq_true, if_false, Option.some.injEq] at h
          exact Or.inl h.symm
      | true =>
          rw [hoc] at h
          simp only [if_true] at h
          rcases ih _ _ _ h with h1 | ⟨k, hk, hname⟩
          · exact Or.inr ⟨counter, Nat.le_refl counter, h1⟩
          · exact Or.inr ⟨k, by omega, hname⟩

/-- C8: two consecutive saves of the same desired filename (initially free)
into the same directory produce distinct filenames — the second gets an
incrementing numeric suffix before the extension — never overwrite the
first file, and report the actually-used path, filename, byte size, and
human-readable size. -/
theorem C8_collision_safe_save (fs : List String) (dir : String)
    (bytes1 bytes2 : List Nat) (filename : String) (fuel1 fuel2 : Nat)
    (m1 m2 : GeneratedImage) (fs1 fs2 : List String)
    (hfree : fs.contains (dir ++ "/" ++ filename) = false)
    (h1 : save_image fs dir bytes1 filename fuel1 = some (m1, fs1))
    (h2 : save_image fs1 dir bytes2 filename fuel2 = some (m2, fs2)) :
    m1.filename = filename
    ∧ (∃ k, 1 ≤ k ∧ m2.filename = pathStem filename ++ "_" ++ toString k ++ ".jpg")
    ∧ m1.filename ≠ m2.filename
    ∧ fs1.contains m1.path = true
    ∧ fs1.contains m2.path = false
    ∧ m1.path = dir ++ "/" ++ m1.filename
    ∧ m2.path = dir ++ "/" ++ m2.filename
    ∧ m1.size_bytes = bytes1.length
    ∧ m1.size_human = format_file_size bytes1.length
    ∧ m2.size_bytes = bytes2.length
    ∧ m2.size_human = format_file_size bytes2.length := by
  simp only [save_image] at h1 h2
  cases hr1 : resolveCollisionLoop
      (fun name => fs.contains (dir ++ "/" ++ name)) (pathStem filename)
      fuel1 1 filename with
  | none => rw [hr1] at h1; exact Option.noConfusion h1
  | some name1 =>
      rw [hr1] at h1
      simp only [Option.some.injEq, Prod.mk.injEq] at h1
      obtain ⟨hm1, hfs1⟩ := h1
      -- the first save uses the desired name, since it is free
      have hname1 : filename = name1 := by
        match fuel1, hr1 with
        | f + 1, hr1 =>
            rw [resolveCollisionLoop, hfree] at hr1
            simp only [Bool.false_eq_true, if_false, Option.some.injEq] at hr1
            exact hr1
      subst hname1
      cases hr2 : resolveCollisionLoop
          (fun name => fs1.contains (dir ++ "/" ++ name)) (pathStem filename)
          fuel2 1 filename with
      | none => rw [hr2] at h2; exact Option.noConfusion h2
      | some name2 =>
          rw [hr2] at h2
          simp only [Option.some.injEq, Prod.mk.injEq] at h2
          obtain ⟨hm2, hfs2⟩ := h2
          have hocc1 : fs1.contains (dir ++ "/" ++ filename) = true := by
            rw [← hfs1]
            simp
          have hfree2 : fs1.contains (dir ++ "/" ++ name2) = false := by
            have hh := resolveCollisionLoop_free
              (fun name => fs1.contains (dir ++ "/" ++ name))
              (pathStem filename) fuel2 1 filename name2 hr2
            simpa using hh
          have hsuffix : ∃ k, 1 ≤ k ∧
              name2 = pathStem filename ++ "_" ++ toString k ++ ".jpg" := by
            match fuel2, hr2 with
            | f + 1, hr2 =>
                rw [resolveCollisionLoop, hocc1] at hr2
                simp only [if_true] at hr2
                rcases resolveCollisionLoop_shape _ _ _ _ _ _ hr2 with hn | ⟨k, hk, hn⟩
                · exact ⟨1, Nat.le_refl 1, hn⟩
                · exact ⟨k, by omega, hn⟩
          have hdistinct : filename ≠ name2 := by
            intro heq
            rw [← heq] at hfree2
            rw [hocc1] at hfree2
            exact Bool.noConfusion hfree2
          refine ⟨?_, ?_, ?_, ?_, ?_, ?_, ?_, ?_, ?_, ?_, ?_⟩
          · rw [← hm1]
          · rw [← hm2]; exact hsuffix
          · rw [← hm1, ← hm2]; exact hdistinct
          · rw [← hm1]; exact hocc1
          · rw [← hm2]; exact hfree2
          · rw [← hm1]
          · rw [← hm2]
          · rw [← hm1]
          · rw [← hm1]
          · rw [← hm2]
          · rw [← hm2]

/-- C8 (witness): saving `a.jpg` twice into an initially empty directory
yields `a.jpg` then `a_1.jpg`, with the second write target absent from the
directory at write time. -/
theorem C8_collision_safe_save_witness :
    (⟨"out/a.jpg", "a.jpg", 3, "3.0 B"⟩ : GeneratedImage).filename ≠
      (⟨"out/a_1.jpg", "a_1.jpg", 1, "1.0 B"⟩ : GeneratedImage).filename
    ∧ (["out/a.jpg"] : List String).contains
        (⟨"out/a_1.jpg", "a_1.jpg", 1, "1.0 B"⟩ : GeneratedImage).path = false := by
  have h := C8_collision_safe_save [] "out" [1, 2, 3] [4] "a.jpg" 3 3
    ⟨"out/a.jpg", "a.jpg", 3, "3.0 B"⟩ ⟨"out/a_1.jpg", "a_1.jpg", 1, "1.0 B"⟩
    ["out/a.jpg"] ["out/a_1.jpg", "out/a.jpg"] rfl rfl rfl
  exact ⟨h.2.2.1, h.2.2.2.2.1⟩

end ImageGenMCP
